import Mathlib

/-!
Verification of the onboarding-form repository (React/TypeScript).

The development shallowly embeds the pure logic of the repository:

* `src/utils/validation.ts` — the zod schema `onboardingFormSchema` and the
  phone normalizer `cleanPhoneInput`;
* `src/services/api.ts` — the axios response interceptor and
  `ApiService.validateCorporationNumber`;
* `src/hooks/useCorporationValidation.ts` — the hook-level
  `validateCorporationNumber` wrapper;
* `src/hooks/useFormSubmission.ts` — `submitForm`;
* `src/components/OnboardingForm.tsx` — `handleCorporationNumberChange`,
  `handleCorporationNumberBlur`, `onSubmit` and the rendered
  `corporationNumberError` precedence chain.

JavaScript strings are modelled as Lean `String` (a list of characters);
JS `undefined`/optional fields as `Option`; the JS truthiness idiom
`x || fallback` on strings as `jsOrDefault`/`orFallback` (both `undefined`
and the empty string are falsy).  Network effects are modelled by passing
the transport outcome of each endpoint call as an explicit argument, and
the side effects of a handler are returned as an explicit result record,
including the ordered list of outgoing network calls it makes.
-/

namespace Onboarding

/-! ## Data model (`src/types.ts`) -/

/-- `OnboardingFormData` from `src/types.ts`. -/
structure OnboardingFormData where
  firstName : String
  lastName : String
  phone : String
  corporationNumber : String
deriving DecidableEq

/-- `CorporationValidationResponse` from `src/types.ts`; `message?` is optional. -/
structure CorporationValidationResponse where
  corporationNumber : String
  valid : Bool
  message : Option String
deriving DecidableEq

/-- `ApiError` from `src/types.ts`: the shape the axios response interceptor
rejects with (`{ message, status? }`). -/
structure ApiError where
  message : String
  status : Option Nat
deriving DecidableEq

/-- The relevant fields of an axios-level error as seen by the response
interceptor in `src/services/api.ts`: `error.message` and
`error.response?.status`. -/
structure AxiosError where
  message : String
  responseStatus : Option Nat
deriving DecidableEq

/-! ## JavaScript string truthiness helpers -/

/-- JS `s || fb` for a string `s`: the empty string is falsy. -/
def jsOrDefault (s fb : String) : String :=
  if s = "" then fb else s

/-- JS `m || fb` where `m` is an optional string (`undefined` and `""` are
falsy). -/
def orFallback (m : Option String) (fb : String) : String :=
  match m with
  | some s => jsOrDefault s fb
  | none => fb

/-! ## Field normalizer (`cleanPhoneInput` in `src/utils/validation.ts`)

```ts
export const cleanPhoneInput = (input: string): string => {
  const cleaned = input.replace(/[^\d+]/g, '');
  if (!cleaned.startsWith('+1')) {
    if (cleaned.startsWith('1')) {
      return '+' + cleaned;
    }
    return '+1' + cleaned.replace(/^\+?/, '');
  }
  return cleaned.substring(0, 12);
};
```
-/

/-- The characters kept by `input.replace(/[^\d+]/g, '')`: digits and plus
signs. -/
def isKept (c : Char) : Bool :=
  c.isDigit || c == '+'

/-- `cleaned.replace(/^\+?/, '')`: removes at most one leading plus sign. -/
def stripLeadPlus : List Char → List Char
  | '+' :: rest => rest
  | l => l

/-- Character-list core of `cleanPhoneInput`.  `(l.filter isKept)` is the
`cleaned` string; `take 2 = ['+','1']` is `cleaned.startsWith('+1')`;
`take 1 = ['1']` is `cleaned.startsWith('1')`; `take 12` is
`cleaned.substring(0, 12)`. -/
def cleanPhoneChars (l : List Char) : List Char :=
  if (l.filter isKept).take 2 = ['+', '1'] then (l.filter isKept).take 12
  else if (l.filter isKept).take 1 = ['1'] then '+' :: l.filter isKept
  else '+' :: '1' :: stripLeadPlus (l.filter isKept)

/-- `cleanPhoneInput` from `src/utils/validation.ts` (the spec's
`normalizePhone`). -/
def cleanPhoneInput (s : String) : String :=
  String.mk (cleanPhoneChars s.data)

/-! ### Structural lemmas about `cleanPhoneChars` -/

lemma stripLeadPlus_subset (l : List Char) : stripLeadPlus l ⊆ l := by
  unfold stripLeadPlus
  split
  case h_1 rest => exact List.subset_cons_self '+' rest
  case h_2 => exact fun x hx => hx

lemma cleanPhoneChars_mem_kept {l : List Char} {c : Char}
    (hc : c ∈ cleanPhoneChars l) : isKept c = true := by
  unfold cleanPhoneChars at hc
  split at hc
  · exact (List.mem_filter.mp (List.take_subset 12 _ hc)).2
  · split at hc
    · rcases List.mem_cons.mp hc with h | h
      · subst h; decide
      · exact (List.mem_filter.mp h).2
    · rcases List.mem_cons.mp hc with h | h
      · subst h; decide
      · rcases List.mem_cons.mp h with h2 | h2
        · subst h2; decide
        · exact (List.mem_filter.mp (stripLeadPlus_subset _ h2)).2

lemma cleanPhoneChars_starts (l : List Char) :
    ∃ rest, cleanPhoneChars l = '+' :: '1' :: rest := by
  unfold cleanPhoneChars
  split
  case isTrue h1 =>
    rcases hc : l.filter isKept with _ | ⟨a, _ | ⟨b, t⟩⟩ <;> rw [hc] at h1
    · simp at h1
    · simp at h1
    · have ha : a = '+' := by simpa using congrArg (fun x => x.head?) h1
      have hb : b = '1' := by simpa using congrArg (fun x => x.tail.head?) h1
      subst ha; subst hb
      exact ⟨t.take 10, rfl⟩
  case isFalse h1 =>
    split
    case isTrue h2 =>
      rcases hc : l.filter isKept with _ | ⟨a, t⟩ <;> rw [hc] at h2
      · simp at h2
      · have ha : a = '1' := by simpa using congrArg (fun x => x.head?) h2
        subst ha
        exact ⟨t, rfl⟩
    case isFalse h2 =>
      exact ⟨stripLeadPlus (l.filter isKept), rfl⟩

/-- On a list that already consists of kept characters and starts with
`+1`, `cleanPhoneChars` is just `take 12`. -/
lemma cleanPhoneChars_of_clean {m : List Char}
    (h2 : m.take 2 = ['+', '1'])
    (hk : ∀ c ∈ m, isKept c = true) :
    cleanPhoneChars m = m.take 12 := by
  unfold cleanPhoneChars
  rw [List.filter_eq_self.mpr hk, if_pos h2]

lemma cleanPhoneChars_double (l : List Char) :
    cleanPhoneChars (cleanPhoneChars l) = (cleanPhoneChars l).take 12 := by
  obtain ⟨rest, hrest⟩ := cleanPhoneChars_starts l
  refine cleanPhoneChars_of_clean ?_ ?_
  · rw [hrest]
    rfl
  · exact fun c hc => cleanPhoneChars_mem_kept hc

/-! ### Phone-normalizer claims -/

/-- Counterexample input for idempotence: twelve digits starting with `1`.
The `startsWith('1')` branch prepends `+` without truncating, producing 13
characters; a second application truncates to 12. -/
theorem cleanPhoneInput_not_idempotent :
    cleanPhoneInput (cleanPhoneInput "123456789012") ≠
      cleanPhoneInput "123456789012" := by decide

/-- C7 (amended): `cleanPhoneInput` is not idempotent in general; a second
application equals the first 12 characters of the first application, so it
is idempotent exactly on the inputs whose normalized form is at most 12
characters long. -/
theorem cleanPhoneInput_double_normalization (s : String) :
    (cleanPhoneInput (cleanPhoneInput s)).data = (cleanPhoneInput s).data.take 12 ∧
    ((cleanPhoneInput s).length ≤ 12 →
      cleanPhoneInput (cleanPhoneInput s) = cleanPhoneInput s) := by
  constructor
  · exact cleanPhoneChars_double s.data
  · intro hlen
    have h : cleanPhoneChars (cleanPhoneChars s.data) = cleanPhoneChars s.data := by
      rw [cleanPhoneChars_double s.data]
      exact List.take_of_length_le hlen
    exact congrArg String.mk h

/-- Witness for C7's amended theorem at the concrete raw input
`'3062776103'`, whose normalization `'+13062776103'` has exactly 12
characters and is therefore a fixed point. -/
theorem cleanPhoneInput_idempotent_on_short_instance :
    cleanPhoneInput (cleanPhoneInput "3062776103") = cleanPhoneInput "3062776103" :=
  (cleanPhoneInput_double_normalization "3062776103").2 (by decide)

/-- Counterexample input for universal truncation: thirteen digits starting
with `1` normalize to a 14-character string, exceeding the claimed
12-character bound. -/
theorem cleanPhoneInput_exceeds_twelve :
    ¬ (cleanPhoneInput "1234567890123").length ≤ 12 := by decide

/-- C8 (amended): the degenerate inputs all normalize to the literal
`'+1'`; the output consists only of digits and plus signs (every plus sign
is kept, not only a leading one); and the result is truncated to at most 12
characters only when the cleaned input already starts with `'+1'`. -/
theorem cleanPhoneInput_shape :
    (cleanPhoneInput "" = "+1" ∧ cleanPhoneInput "abc" = "+1" ∧
     cleanPhoneInput "+" = "+1" ∧ cleanPhoneInput "1" = "+1") ∧
    (∀ s : String, (cleanPhoneInput s).data.all isKept = true) ∧
    (∀ s : String, (s.data.filter isKept).take 2 = ['+', '1'] →
      (cleanPhoneInput s).length ≤ 12) := by
  refine ⟨by decide, ?_, ?_⟩
  · intro s
    rw [List.all_eq_true]
    exact fun c hc => cleanPhoneChars_mem_kept hc
  · intro s hs
    show (cleanPhoneChars s.data).length ≤ 12
    unfold cleanPhoneChars
    rw [if_pos hs]
    exact List.length_take_le 12 _

/-- Witness for C8's amended theorem: a cleaned input starting with `'+1'`
is truncated to at most 12 characters, and its output is digits-and-plus
only. -/
theorem cleanPhoneInput_shape_instance :
    (cleanPhoneInput "+1 306 277 6103 ext 99").length ≤ 12 ∧
    (cleanPhoneInput "+1 306 277 6103 ext 99").data.all isKept = true :=
  ⟨(cleanPhoneInput_shape.2.2 "+1 306 277 6103 ext 99") (by decide),
   cleanPhoneInput_shape.2.1 "+1 306 277 6103 ext 99"⟩

/-! ## Schema validator (`onboardingFormSchema` in `src/utils/validation.ts`)

zod runs the checks of a chain in declaration order and applies transforms
where they appear.  `z.string().min(1).max(50).trim()` therefore checks
`min`/`max` on the *raw* string first and only then trims the parsed
output; `.trim()` is an output transform, not a pre-validation
normalization. -/

/-- Acceptance of the `firstName`/`lastName` chain
`z.string().min(1, ...).max(50, ...).trim()`: both length checks run on the
raw string. -/
def zodNameAccepts (s : String) : Bool :=
  decide (1 ≤ s.length) && decide (s.length ≤ 50)

/-- `canadianPhoneRegex = /^\+1[2-9]\d{2}[2-9]\d{2}\d{4}$/`: `+1`, then an
area code starting in 2–9, then an exchange starting in 2–9, then four more
digits — 12 characters in total. -/
def canadianPhoneMatch (s : String) : Bool :=
  match s.data with
  | ['+', '1', a, b, c, d, e, f, g, h, i, j] =>
      decide ('2' ≤ a) && decide (a ≤ '9') && b.isDigit && c.isDigit &&
      decide ('2' ≤ d) && decide (d ≤ '9') && e.isDigit && f.isDigit &&
      g.isDigit && h.isDigit && i.isDigit && j.isDigit
  | _ => false

/-- Acceptance of the `phone` chain `z.string().min(1).regex(...).trim()`. -/
def zodPhoneAccepts (s : String) : Bool :=
  decide (1 ≤ s.length) && canadianPhoneMatch s

/-- Acceptance of the `corporationNumber` chain
`z.string().min(1).length(9).regex(/^\d{9}$/)`. -/
def zodCorporationNumberAccepts (s : String) : Bool :=
  decide (1 ≤ s.length) && decide (s.length = 9) && s.data.all Char.isDigit

/-- Acceptance of the whole `onboardingFormSchema` object. -/
def onboardingFormSchemaAccepts (d : OnboardingFormData) : Bool :=
  zodNameAccepts d.firstName && zodNameAccepts d.lastName &&
  zodPhoneAccepts d.phone && zodCorporationNumberAccepts d.corporationNumber

lemma string_eq_empty_iff (s : String) : s = "" ↔ s.data = [] := by
  constructor
  · intro h; rw [h]
  · intro h
    exact String.ext (by rw [h])

lemma string_length_eq_zero_iff (s : String) : s.length = 0 ↔ s = "" := by
  rw [string_eq_empty_iff]
  exact List.length_eq_zero

/-! ### Name-field claims -/

/-- Counterexample input for C9: the single-space string consists only of
whitespace, is claimed to be rejected as empty, yet the schema accepts it —
zod's `.min(1)` runs before the `.trim()` transform, so the parsed value is
the empty string. -/
theorem whitespace_name_accepted :
    (" " : String) ≠ "" ∧ (" " : String).data.all Char.isWhitespace = true ∧
    zodNameAccepts " " = true := by decide

/-- C9 (amended): the schema accepts `firstName`/`lastName` exactly when
the raw (untrimmed) string is non-empty and at most 50 characters long;
trimming applies only to the parsed output, so whitespace-only strings are
accepted. -/
theorem zodNameAccepts_iff (s : String) :
    zodNameAccepts s = true ↔ (s ≠ "" ∧ s.length ≤ 50) := by
  unfold zodNameAccepts
  rw [Bool.and_eq_true, decide_eq_true_iff, decide_eq_true_iff]
  constructor
  · rintro ⟨h1, h2⟩
    refine ⟨?_, h2⟩
    intro he
    rw [← string_length_eq_zero_iff] at he
    omega
  · rintro ⟨h1, h2⟩
    refine ⟨?_, h2⟩
    by_contra hlt
    exact h1 ((string_length_eq_zero_iff s).mp (by omega))

/-! ## Corporation-number change handler (`OnboardingForm.tsx`)

```ts
const handleCorporationNumberChange = useCallback((e) => {
  const value = e.target.value.replace(/\D/g, '');
  if (value.length <= 9) {
    setValue('corporationNumber', value);
    trigger('corporationNumber');
  }
}, [setValue, trigger]);
```
-/

/-- `handleCorporationNumberChange`: `stored` is the current field value,
`raw` is `e.target.value`; the event is ignored (the stored value kept)
when the digit-stripped input is longer than 9. -/
def handleCorporationNumberChange (stored raw : String) : String :=
  if (raw.data.filter Char.isDigit).length ≤ 9 then
    String.mk (raw.data.filter Char.isDigit)
  else stored

lemma corp_change_fold_invariant (events : List String) :
    ∀ stored : String, stored.length ≤ 9 → stored.data.all Char.isDigit = true →
      (events.foldl handleCorporationNumberChange stored).length ≤ 9 ∧
      (events.foldl handleCorporationNumberChange stored).data.all Char.isDigit = true := by
  induction events with
  | nil => exact fun stored h1 h2 => ⟨h1, h2⟩
  | cons raw es ih =>
    intro stored h1 h2
    rw [List.foldl_cons]
    refine ih _ ?_ ?_
    · unfold handleCorporationNumberChange
      split
      case isTrue h => exact h
      case isFalse h => exact h1
    · unfold handleCorporationNumberChange
      split
      case isTrue h =>
        rw [List.all_eq_true]
        exact fun c hc => (List.mem_filter.mp hc).2
      case isFalse h => exact h2

/-- C10: the change handler strips non-digit characters; when the stripped
input is longer than 9 it leaves the stored value unchanged (the event is
ignored, not truncated); consequently, after any sequence of change events
starting from the empty initial value, the stored corporation number has at
most 9 characters and contains only digits. -/
theorem handleCorporationNumberChange_spec :
    (∀ stored raw : String, 9 < (raw.data.filter Char.isDigit).length →
      handleCorporationNumberChange stored raw = stored) ∧
    (∀ stored raw : String, (raw.data.filter Char.isDigit).length ≤ 9 →
      handleCorporationNumberChange stored raw = String.mk (raw.data.filter Char.isDigit)) ∧
    (∀ events : List String,
      (events.foldl handleCorporationNumberChange "").length ≤ 9 ∧
      (events.foldl handleCorporationNumberChange "").data.all Char.isDigit = true) := by
  refine ⟨?_, ?_, ?_⟩
  · intro stored raw h
    unfold handleCorporationNumberChange
    rw [if_neg (by omega)]
  · intro stored raw h
    unfold handleCorporationNumberChange
    rw [if_pos h]
  · intro events
    exact corp_change_fold_invariant events "" (by decide) (by decide)

/-- Witness for C10 at concrete inputs: an 13-digit paste is ignored, a
mixed digit/non-digit input is stripped and stored. -/
theorem handleCorporationNumberChange_instance :
    handleCorporationNumberChange "123" "1234567890123" = "123" ∧
    handleCorporationNumberChange "123" "12a34-56" = "123456" :=
  ⟨handleCorporationNumberChange_spec.1 "123" "1234567890123" (by decide),
   handleCorporationNumberChange_spec.2.1 "123" "12a34-56" (by decide)⟩

/-! ## Remote verifier (`src/services/api.ts` and
`src/hooks/useCorporationValidation.ts`)

The transport outcome of `GET /corporation-number/{cn}` is passed
explicitly: either the parsed response body, or an axios-level error. -/

/-- Outcome of the HTTP round trip for a corporation-number lookup. -/
inductive Transport where
  | ok (r : CorporationValidationResponse)
  | fail (e : AxiosError)
deriving DecidableEq

/-- The axios response interceptor in `src/services/api.ts`:
`{ message: error.message || 'An unexpected error occurred',
status: error.response?.status }`. -/
def interceptor (e : AxiosError) : ApiError :=
  { message := jsOrDefault e.message "An unexpected error occurred",
    status := e.responseStatus }

/-- `this.client.get(...)` as seen by `ApiService.validateCorporationNumber`:
a successful response delivers the body; a failed one rejects with the
interceptor's `ApiError`. -/
def clientGet (t : Transport) : Except ApiError CorporationValidationResponse :=
  match t with
  | Transport.ok r => Except.ok r
  | Transport.fail e => Except.error (interceptor e)

/-- The `error instanceof Error` test in
`ApiService.validateCorporationNumber`'s catch clause.  Every error
reaching that clause was produced by the response interceptor, which
rejects with the object literal `{ message, status }` — a plain object,
not a JS `Error` instance — so the test is always false there and the
400-translation branch never fires. -/
def errorIsErrorInstance (_ : ApiError) : Bool := false

/-- `ApiService.validateCorporationNumber` from `src/services/api.ts`. -/
def apiValidateCorporationNumber (cn : String) (t : Transport) :
    Except ApiError CorporationValidationResponse :=
  match clientGet t with
  | Except.ok r => Except.ok r
  | Except.error e =>
      if errorIsErrorInstance e && (e.status == some 400) then
        Except.ok { corporationNumber := cn, valid := false, message := some e.message }
      else Except.error e

/-- The verdict the hook-level `validateCorporationNumber` settles on for a
value that passes its guard: the service result on success, and on any
thrown `ApiError` the catch clause's
`{ corporationNumber, valid: false, message: apiError.message || '...' }`. -/
def freshVerdict (cn : String) (t : Transport) : CorporationValidationResponse :=
  match apiValidateCorporationNumber cn t with
  | Except.ok r => r
  | Except.error e =>
      { corporationNumber := cn, valid := false,
        message := some (jsOrDefault e.message "Failed to validate corporation number") }

/-- Observable effect of one call to the hook-level
`validateCorporationNumber`: whether the remote endpoint was hit, the new
`validationResult` state, and the value returned to the caller (`none`
models the `undefined` return of the early guard exit). -/
structure HookResult where
  remoteInvoked : Bool
  validationResult : Option CorporationValidationResponse
  returned : Option CorporationValidationResponse
deriving DecidableEq

/-- `validateCorporationNumber` from `src/hooks/useCorporationValidation.ts`:

```ts
if (!corporationNumber || corporationNumber.length !== 9) {
  setValidationResult(null);
  return;
}
...
```
The guard checks emptiness and length only; both the try and catch arms
store and return the same verdict. -/
def hookValidateCorporationNumber (cn : String) (t : Transport) : HookResult :=
  if cn = "" ∨ cn.length ≠ 9 then
    { remoteInvoked := false, validationResult := none, returned := none }
  else
    { remoteInvoked := true, validationResult := some (freshVerdict cn t),
      returned := some (freshVerdict cn t) }

/-! ### Remote-verifier claims -/

/-- C3: for every 9-digit input and every transport outcome, the
verification operation yields a verdict rather than an exception: the
remote endpoint is hit, the returned and stored verdict exists, a
transport-level failure (400 included) becomes `valid := false` carrying
the error's non-empty message, and a 400 rejection in particular carries
the authority's message. -/
theorem verification_always_yields_verdict (cn : String) (t : Transport)
    (hlen : cn.length = 9) (_hdig : cn.data.all Char.isDigit = true) :
    (hookValidateCorporationNumber cn t).remoteInvoked = true ∧
    (hookValidateCorporationNumber cn t).returned = some (freshVerdict cn t) ∧
    (hookValidateCorporationNumber cn t).validationResult = some (freshVerdict cn t) ∧
    (∀ e, t = Transport.fail e →
      (freshVerdict cn t).valid = false ∧
      ∃ m, (freshVerdict cn t).message = some m ∧ m ≠ "" ∧
        (e.message ≠ "" → m = e.message)) := by
  have hguard : ¬ (cn = "" ∨ cn.length ≠ 9) := by
    rintro (h | h)
    · rw [h] at hlen
      exact absurd hlen (by decide)
    · exact h hlen
  unfold hookValidateCorporationNumber
  rw [if_neg hguard]
  refine ⟨rfl, rfl, rfl, ?_⟩
  rintro e rfl
  unfold freshVerdict apiValidateCorporationNumber clientGet errorIsErrorInstance
  simp only [Bool.false_and, if_neg (by decide : ¬ (false = true))]
  unfold interceptor jsOrDefault
  by_cases hm : e.message = ""
  · rw [if_pos hm]
    exact ⟨trivial, "An unexpected error occurred", by simp, by decide,
      fun hne => absurd hm hne⟩
  · rw [if_neg hm]
    exact ⟨trivial, e.message, by simp [hm], hm, fun _ => rfl⟩

/-- Witness for C3 at a concrete 400 rejection: the verdict exists, is
invalid, and carries the authority's message. -/
theorem verification_yields_verdict_instance :
    ∃ m, (freshVerdict "123456789"
            (Transport.fail { message := "Invalid corporation number",
                              responseStatus := some 400 })).message = some m ∧
         m ≠ "" := by
  obtain ⟨-, -, -, h⟩ :=
    verification_always_yields_verdict "123456789"
      (Transport.fail { message := "Invalid corporation number",
                        responseStatus := some 400 })
      (by decide) (by decide)
  obtain ⟨-, m, hm, hne, -⟩ := h _ rfl
  exact ⟨m, hm, hne⟩

/-- Counterexample input for C6: a length-9 value containing a non-digit is
not a 9-digit string, yet the hook's guard — which checks length only —
lets it through to the remote verifier. -/
theorem nine_char_nondigit_still_invokes_remote :
    ("12345678x" : String).data.all Char.isDigit = false ∧
    (hookValidateCorporationNumber "12345678x"
      (Transport.ok { corporationNumber := "12345678x", valid := true,
                      message := none })).remoteInvoked = true := by decide

/-- C6 (amended): whenever the hook-level verification is invoked with a
value that is empty or not of length 9, the remote verifier is not hit and
the held `VerificationRecord` is cleared to `null` (no verdict), not
recorded as an error.  (The guard checks length only; in the application
every stored corporation-number value is digit-only, so length 9 coincides
with being a 9-digit string there.) -/
theorem short_value_clears_verification (cn : String) (t : Transport)
    (h : cn = "" ∨ cn.length ≠ 9) :
    (hookValidateCorporationNumber cn t).remoteInvoked = false ∧
    (hookValidateCorporationNumber cn t).validationResult = none ∧
    (hookValidateCorporationNumber cn t).returned = none := by
  unfold hookValidateCorporationNumber
  rw [if_pos h]
  exact ⟨rfl, rfl, rfl⟩

/-- Witness for C6's amended theorem at the concrete value `'123'`. -/
theorem short_value_clears_verification_instance :
    (hookValidateCorporationNumber "123"
      (Transport.fail { message := "network down", responseStatus := none })).remoteInvoked = false ∧
    (hookValidateCorporationNumber "123"
      (Transport.fail { message := "network down", responseStatus := none })).validationResult = none :=
  ⟨(short_value_clears_verification "123" _ (by decide)).1,
   (short_value_clears_verification "123" _ (by decide)).2.1⟩

/-! ## Submission hook (`src/hooks/useFormSubmission.ts`) -/

/-- The three state flags owned by `useFormSubmission`. -/
structure SubmissionState where
  isSubmitting : Bool
  submitError : Option String
  isSuccess : Bool
deriving DecidableEq

/-- The value `submitForm` returns to its caller:
`{ success: true }` or `{ success: false, error }`. -/
structure SubmitResult where
  success : Bool
  error : Option String
deriving DecidableEq

/-- `submitForm` from `src/hooks/useFormSubmission.ts`, as a function of
the prior state and the outcome of `POST /profile-details`.  It first sets
`isSubmitting := true`, `submitError := null`, `isSuccess := false`; the
try arm sets `isSuccess := true`, the catch arm stores
`apiError.message || 'Failed to submit form'`; the finally arm always
resets `isSubmitting`. -/
def submitForm (st0 : SubmissionState) (outcome : Except ApiError Unit) :
    SubmissionState × SubmitResult :=
  let st1 : SubmissionState :=
    { st0 with isSubmitting := true, submitError := none, isSuccess := false }
  match outcome with
  | Except.ok _ =>
      ({ st1 with isSuccess := true, isSubmitting := false },
       { success := true, error := none })
  | Except.error e =>
      ({ st1 with submitError := some (jsOrDefault e.message "Failed to submit form"),
                  isSubmitting := false },
       { success := false, error := some (jsOrDefault e.message "Failed to submit form") })

/-! ### Submission-state claim -/

/-- C4: for every prior state and every endpoint outcome, a success sets
`isSuccess := true` and `submitError := null` regardless of prior error
state; a failure with non-empty message `M` sets `submitError := M` and
leaves `isSuccess := false`; and `isSubmitting` is false again after the
call in both paths. -/
theorem submitForm_outcome_state (st0 : SubmissionState) (outcome : Except ApiError Unit) :
    (submitForm st0 outcome).1.isSubmitting = false ∧
    (outcome = Except.ok () →
      (submitForm st0 outcome).1.isSuccess = true ∧
      (submitForm st0 outcome).1.submitError = none) ∧
    (∀ e : ApiError, outcome = Except.error e → e.message ≠ "" →
      (submitForm st0 outcome).1.submitError = some e.message ∧
      (submitForm st0 outcome).1.isSuccess = false) := by
  refine ⟨?_, ?_, ?_⟩
  · cases outcome <;> rfl
  · rintro rfl
    exact ⟨rfl, rfl⟩
  · rintro e rfl hne
    simp [submitForm, jsOrDefault, hne]

/-- Witness for C4 at a concrete prior state that already holds an error
and a success flag: an endpoint success overwrites both. -/
theorem submitForm_outcome_state_instance :
    (submitForm { isSubmitting := false, submitError := some "old failure", isSuccess := false }
        (Except.ok ())).1.isSuccess = true ∧
    (submitForm { isSubmitting := false, submitError := some "old failure", isSuccess := false }
        (Except.ok ())).1.submitError = none :=
  (submitForm_outcome_state
    { isSubmitting := false, submitError := some "old failure", isSuccess := false }
    (Except.ok ())).2.1 rfl

/-! ## Submission controller (`onSubmit` in `src/components/OnboardingForm.tsx`)

```ts
const onSubmit = useCallback(async (data: OnboardingFormData) => {
  setFormErrors({});
  resetSubmission();
  if (data.corporationNumber && (!validationResult ||
      validationResult.corporationNumber !== data.corporationNumber)) {
    const corpValidation = await validateCorporationNumber(data.corporationNumber);
    if (corpValidation && !corpValidation.valid) {
      setFormErrors({ corporationNumber: corpValidation.message || 'Invalid corporation number' });
      return;
    }
  }
  if (validationResult && !validationResult.valid) { ... return; }
  const result = await submitForm(data);
  if (!result.success) { setFormErrors({ submit: result.error || 'Failed to submit form' }); }
}, [validationResult, ...]);
```

`validationResult` inside the callback is the value captured at render
time (`held` below): the `await`ed fresh verification updates the hook
state but not this captured binding, so the second guard still reads the
pre-submit record. -/

/-- An outgoing network call made while handling a submit. -/
inductive SubmitEvent where
  | verifyRemote (cn : String)
  | postProfile (data : OnboardingFormData)
deriving DecidableEq

/-- The transport environment of one submit attempt: the outcome the
verification round trip would have, and the outcome of
`POST /profile-details`. -/
structure SubmitEnv where
  verifyTransport : Transport
  postOutcome : Except ApiError Unit

/-- Everything observable after `onSubmit` finishes: the ordered network
calls and the final error/success state. -/
structure OnSubmitResult where
  events : List SubmitEvent
  formErrorsCorp : Option String
  formErrorsSubmit : Option String
  validationResult : Option CorporationValidationResponse
  submitError : Option String
  isSuccess : Bool
deriving DecidableEq

/-- The staleness test
`!validationResult || validationResult.corporationNumber !== data.corporationNumber`. -/
def staleHeld : Option CorporationValidationResponse → String → Prop
  | none, _ => True
  | some v, cn => v.corporationNumber ≠ cn

instance staleHeldDecidable :
    (held : Option CorporationValidationResponse) → (cn : String) →
      Decidable (staleHeld held cn)
  | none, _ => isTrue trivial
  | some v, cn => inferInstanceAs (Decidable (v.corporationNumber ≠ cn))

/-- The verification calls a hook invocation contributed. -/
def verifyEvents (h : HookResult) (cn : String) : List SubmitEvent :=
  if h.remoteInvoked then [SubmitEvent.verifyRemote cn] else []

/-- Step 4 of `onSubmit`: call the submission endpoint; on failure record
`result.error || 'Failed to submit form'` under the `submit` key. -/
def submitStage4 (env : SubmitEnv) (data : OnboardingFormData)
    (ev1 : List SubmitEvent) (vrState : Option CorporationValidationResponse) :
    OnSubmitResult :=
  let p := submitForm { isSubmitting := false, submitError := none, isSuccess := false }
    env.postOutcome
  { events := ev1 ++ [SubmitEvent.postProfile data],
    formErrorsCorp := none,
    formErrorsSubmit :=
      if p.2.success then none else some (orFallback p.2.error "Failed to submit form"),
    validationResult := vrState,
    submitError := p.1.submitError,
    isSuccess := p.1.isSuccess }

/-- Step 3 of `onSubmit`: the consistency check against the *captured*
pre-submit record `held` (the stale closure value), run even when a fresh
verification already succeeded. -/
def submitStage34 (held : Option CorporationValidationResponse) (env : SubmitEnv)
    (data : OnboardingFormData) (ev1 : List SubmitEvent)
    (vrState : Option CorporationValidationResponse) : OnSubmitResult :=
  match held with
  | some v =>
      if v.valid then submitStage4 env data ev1 vrState
      else
        { events := ev1,
          formErrorsCorp := some (orFallback v.message "Invalid corporation number"),
          formErrorsSubmit := none, validationResult := vrState,
          submitError := none, isSuccess := false }
  | none => submitStage4 env data ev1 vrState

/-- Step 2 of `onSubmit` after the hook call returned `h`: fail fast on an
invalid fresh verdict, otherwise fall through to steps 3–4. -/
def onSubmitFresh (held : Option CorporationValidationResponse) (env : SubmitEnv)
    (data : OnboardingFormData) (h : HookResult) : OnSubmitResult :=
  match h.returned with
  | some r =>
      if r.valid then
        submitStage34 held env data (verifyEvents h data.corporationNumber) h.validationResult
      else
        { events := verifyEvents h data.corporationNumber,
          formErrorsCorp := some (orFallback r.message "Invalid corporation number"),
          formErrorsSubmit := none, validationResult := h.validationResult,
          submitError := none, isSuccess := false }
  | none => submitStage34 held env data (verifyEvents h data.corporationNumber) h.validationResult

/-- `onSubmit` itself.  `held` is the `validationResult` captured by the
callback's closure. -/
def onSubmit (held : Option CorporationValidationResponse) (env : SubmitEnv)
    (data : OnboardingFormData) : OnSubmitResult :=
  if data.corporationNumber ≠ "" ∧ staleHeld held data.corporationNumber then
    onSubmitFresh held env data
      (hookValidateCorporationNumber data.corporationNumber env.verifyTransport)
  else submitStage34 held env data [] held

/-! ### Rendering of the corporation-number error
(`corporationNumberError` in `OnboardingForm.tsx`) -/

/-- JS `a || b` on two optional strings. -/
def jsOrStr (a b : Option String) : Option String :=
  match a with
  | some s => if s = "" then b else some s
  | none => b

/-- ```ts
const corporationNumberError =
  errors.corporationNumber?.message ||
  (validationResult && !validationResult.valid ? validationResult.message : undefined) ||
  formErrors.corporationNumber;
``` -/
def corporationNumberError (schemaError : Option String)
    (vr : Option CorporationValidationResponse) (adhoc : Option String) :
    Option String :=
  jsOrStr
    (jsOrStr schemaError
      (match vr with
       | some v => if v.valid then none else v.message
       | none => none))
    adhoc

/-- A message as actually rendered: the empty string displays nothing. -/
def shownMessage : Option String → Option String
  | some s => if s = "" then none else some s
  | none => none

/-- The message of a held invalid record, when it has one. -/
def heldInvalidMessage : Option CorporationValidationResponse → Option String
  | some v => if v.valid then none else shownMessage v.message
  | none => none

/-- Modelled from the spec's precedence sentence: pick the synchronous
schema error first, else the held invalid record's message, else the
submission-time ad hoc error — a single message. -/
def specErrorPrecedence (schemaError : Option String)
    (vr : Option CorporationValidationResponse) (adhoc : Option String) :
    Option String :=
  match shownMessage schemaError with
  | some m => some m
  | none =>
      match heldInvalidMessage vr with
      | some m => some m
      | none => shownMessage adhoc

/-- C5: the error rendered for the corporation-number field is exactly the
single message selected by the spec's precedence order — synchronous
schema error first, else the held invalid `VerificationRecord`'s message,
else the submission-time ad hoc error. -/
theorem corporation_number_error_precedence (schemaError : Option String)
    (vr : Option CorporationValidationResponse) (adhoc : Option String) :
    shownMessage (corporationNumberError schemaError vr adhoc) =
      specErrorPrecedence schemaError vr adhoc := by
  rcases schemaError with _ | s
  · rcases vr with _ | v
    · rcases adhoc with _ | a <;>
        simp [corporationNumberError, jsOrStr, shownMessage, specErrorPrecedence,
          heldInvalidMessage]
    · by_cases hv : v.valid = true
      · rcases adhoc with _ | a <;>
          simp [corporationNumberError, jsOrStr, shownMessage, specErrorPrecedence,
            heldInvalidMessage, hv]
      · rw [Bool.not_eq_true] at hv
        rcases hm : v.message with _ | m
        · rcases adhoc with _ | a <;>
            simp [corporationNumberError, jsOrStr, shownMessage, specErrorPrecedence,
              heldInvalidMessage, hv, hm]
        · by_cases hme : m = "" <;>
            simp [corporationNumberError, jsOrStr, shownMessage, specErrorPrecedence,
              heldInvalidMessage, hv, hm, hme]
  · by_cases hs : s = ""
    · subst hs
      rcases vr with _ | v
      · rcases adhoc with _ | a <;>
          simp [corporationNumberError, jsOrStr, shownMessage, specErrorPrecedence,
            heldInvalidMessage]
      · by_cases hv : v.valid = true
        · rcases adhoc with _ | a <;>
            simp [corporationNumberError, jsOrStr, shownMessage, specErrorPrecedence,
              heldInvalidMessage, hv]
        · rw [Bool.not_eq_true] at hv
          rcases hm : v.message with _ | m
          · rcases adhoc with _ | a <;>
              simp [corporationNumberError, jsOrStr, shownMessage, specErrorPrecedence,
                heldInvalidMessage, hv, hm]
          · by_cases hme : m = "" <;>
              simp [corporationNumberError, jsOrStr, shownMessage, specErrorPrecedence,
                heldInvalidMessage, hv, hm, hme]
    · simp [corporationNumberError, jsOrStr, shownMessage, specErrorPrecedence,
        heldInvalidMessage, hs]

/-! ### Submission-controller claims -/

lemma schemaAccepts_corp {d : OnboardingFormData}
    (h : onboardingFormSchemaAccepts d = true) : d.corporationNumber.length = 9 := by
  unfold onboardingFormSchemaAccepts zodCorporationNumberAccepts at h
  simp only [Bool.and_eq_true, decide_eq_true_iff] at h
  exact h.2.1.2

lemma len9_no_guard {cn : String} (h : cn.length = 9) : ¬ (cn = "" ∨ cn.length ≠ 9) := by
  rintro (hc | hc)
  · rw [hc] at h
    exact absurd h (by decide)
  · exact hc h

lemma hookValidate_of_len9 (cn : String) (t : Transport) (h : cn.length = 9) :
    hookValidateCorporationNumber cn t =
      { remoteInvoked := true, validationResult := some (freshVerdict cn t),
        returned := some (freshVerdict cn t) } := by
  unfold hookValidateCorporationNumber
  rw [if_neg (len9_no_guard h)]

lemma submitStage4_events (env : SubmitEnv) (data : OnboardingFormData)
    (ev1 : List SubmitEvent) (vr : Option CorporationValidationResponse) :
    (submitStage4 env data ev1 vr).events = ev1 ++ [SubmitEvent.postProfile data] := rfl

lemma submitStage4_ok {env : SubmitEnv} (data : OnboardingFormData)
    (ev1 : List SubmitEvent) (vr : Option CorporationValidationResponse)
    (h : env.postOutcome = Except.ok ()) :
    (submitStage4 env data ev1 vr).isSuccess = true ∧
    (submitStage4 env data ev1 vr).submitError = none ∧
    (submitStage4 env data ev1 vr).formErrorsCorp = none ∧
    (submitStage4 env data ev1 vr).formErrorsSubmit = none := by
  simp [submitStage4, submitForm, h]

lemma submitStage34_events_cases (held : Option CorporationValidationResponse)
    (env : SubmitEnv) (data : OnboardingFormData) (ev1 : List SubmitEvent)
    (vr : Option CorporationValidationResponse) :
    (submitStage34 held env data ev1 vr).events = ev1 ++ [SubmitEvent.postProfile data] ∨
    (submitStage34 held env data ev1 vr).events = ev1 := by
  rcases held with _ | v
  · exact Or.inl rfl
  · by_cases hv : v.valid = true
    · exact Or.inl (by simp [submitStage34, hv, submitStage4])
    · exact Or.inr (by simp [submitStage34, hv])

/-- C1: when submit runs with a non-empty corporation number and no
matching held record, exactly one fresh verification call is made, and it
precedes any call to the submission endpoint; if the fresh verdict is
invalid the endpoint is never called and the verdict's message is recorded
as the corporation-number field error. -/
theorem submit_stale_triggers_single_fresh_verification
    (held : Option CorporationValidationResponse) (env : SubmitEnv)
    (data : OnboardingFormData)
    (hschema : onboardingFormSchemaAccepts data = true)
    (hne : data.corporationNumber ≠ "")
    (hstale : staleHeld held data.corporationNumber) :
    (∃ rest, (onSubmit held env data).events =
        SubmitEvent.verifyRemote data.corporationNumber :: rest ∧
      ∀ cn, SubmitEvent.verifyRemote cn ∉ rest) ∧
    ((freshVerdict data.corporationNumber env.verifyTransport).valid = false →
      (∀ d, SubmitEvent.postProfile d ∉ (onSubmit held env data).events) ∧
      ∀ m, (freshVerdict data.corporationNumber env.verifyTransport).message = some m →
        m ≠ "" → (onSubmit held env data).formErrorsCorp = some m) := by
  have h9 := schemaAccepts_corp hschema
  have hon : onSubmit held env data =
      onSubmitFresh held env data
        { remoteInvoked := true,
          validationResult := some (freshVerdict data.corporationNumber env.verifyTransport),
          returned := some (freshVerdict data.corporationNumber env.verifyTransport) } := by
    unfold onSubmit
    rw [if_pos ⟨hne, hstale⟩, hookValidate_of_len9 _ _ h9]
  by_cases hv : (freshVerdict data.corporationNumber env.verifyTransport).valid = true
  · have hon2 : onSubmit held env data =
        submitStage34 held env data
          [SubmitEvent.verifyRemote data.corporationNumber]
          (some (freshVerdict data.corporationNumber env.verifyTransport)) := by
      rw [hon]
      simp [onSubmitFresh, verifyEvents, hv]
    constructor
    · rcases submitStage34_events_cases held env data
          [SubmitEvent.verifyRemote data.corporationNumber]
          (some (freshVerdict data.corporationNumber env.verifyTransport)) with hev | hev
      · exact ⟨[SubmitEvent.postProfile data], by rw [hon2, hev]; rfl, by simp⟩
      · exact ⟨[], by rw [hon2, hev], by simp⟩
    · intro hfv
      exact absurd hfv (by simp [hv])
  · rw [Bool.not_eq_true] at hv
    have hon2 : onSubmit held env data =
        { events := [SubmitEvent.verifyRemote data.corporationNumber],
          formErrorsCorp := some (orFallback
            (freshVerdict data.corporationNumber env.verifyTransport).message
            "Invalid corporation number"),
          formErrorsSubmit := none,
          validationResult := some (freshVerdict data.corporationNumber env.verifyTransport),
          submitError := none, isSuccess := false } := by
      rw [hon]
      simp [onSubmitFresh, verifyEvents, hv]
    constructor
    · exact ⟨[], by rw [hon2], by simp⟩
    · intro _
      constructor
      · intro d
        rw [hon2]
        simp
      · intro m hm hmne
        rw [hon2]
        simp only [hm, orFallback, jsOrDefault, if_neg hmne]

/-- Witness for C1 at a concrete stale submit whose fresh verdict is a 400
rejection: the recorded field error is the verdict's message. -/
theorem submit_stale_fresh_verification_instance :
    (onSubmit none
      { verifyTransport := Transport.fail
          { message := "Invalid corporation number", responseStatus := some 400 },
        postOutcome := Except.ok () }
      { firstName := "John", lastName := "Doe", phone := "+13062776103",
        corporationNumber := "123456789" }).formErrorsCorp =
      some "Invalid corporation number" := by
  have h := submit_stale_triggers_single_fresh_verification none
    { verifyTransport := Transport.fail
        { message := "Invalid corporation number", responseStatus := some 400 },
      postOutcome := Except.ok () }
    { firstName := "John", lastName := "Doe", phone := "+13062776103",
      corporationNumber := "123456789" }
    (by decide) (by decide) trivial
  exact (h.2 (by decide)).2 "Invalid corporation number" (by decide) (by decide)

/-- Counterexample input for C2: a held record for a *different* number is
invalid; the fresh verification performed during submit returns a valid
verdict, yet the second guard — which reads the closure-captured, stale
`validationResult` — blocks the submit: the endpoint is never called,
`isSuccess` stays false, and the stale record's message is recorded. -/
theorem submit_fresh_valid_blocked_by_stale_record :
    (freshVerdict "123456789"
      (Transport.ok { corporationNumber := "123456789", valid := true,
                      message := none })).valid = true ∧
    (onSubmit
        (some { corporationNumber := "111111111", valid := false,
                message := some "Not a registered corporation" })
        { verifyTransport := Transport.ok
            { corporationNumber := "123456789", valid := true, message := none },
          postOutcome := Except.ok () }
        { firstName := "John", lastName := "Doe", phone := "+13062776103",
          corporationNumber := "123456789" }).events =
      [SubmitEvent.verifyRemote "123456789"] ∧
    (onSubmit
        (some { corporationNumber := "111111111", valid := false,
                message := some "Not a registered corporation" })
        { verifyTransport := Transport.ok
            { corporationNumber := "123456789", valid := true, message := none },
          postOutcome := Except.ok () }
        { firstName := "John", lastName := "Doe", phone := "+13062776103",
          corporationNumber := "123456789" }).isSuccess = false ∧
    (onSubmit
        (some { corporationNumber := "111111111", valid := false,
                message := some "Not a registered corporation" })
        { verifyTransport := Transport.ok
            { corporationNumber := "123456789", valid := true, message := none },
          postOutcome := Except.ok () }
        { firstName := "John", lastName := "Doe", phone := "+13062776103",
          corporationNumber := "123456789" }).formErrorsCorp =
      some "Not a registered corporation" := by decide

/-- C2 (amended): the submission endpoint is called with the full form
input when verification passes *and* the pre-submit held record (if any)
is not an invalid one — either the fresh verification during submit
returns a valid verdict while the held record is absent or valid, or the
held record matches the input's number and is valid; if the endpoint then
succeeds, the final state is `isSuccess := true` with no errors. -/
theorem submit_verification_passes_calls_endpoint
    (held : Option CorporationValidationResponse) (env : SubmitEnv)
    (data : OnboardingFormData)
    (hschema : onboardingFormSchemaAccepts data = true)
    (hpass :
      (data.corporationNumber ≠ "" ∧ staleHeld held data.corporationNumber ∧
        (freshVerdict data.corporationNumber env.verifyTransport).valid = true ∧
        (∀ v, held = some v → v.valid = true)) ∨
      (∃ v, held = some v ∧ v.corporationNumber = data.corporationNumber ∧
        v.valid = true)) :
    SubmitEvent.postProfile data ∈ (onSubmit held env data).events ∧
    (env.postOutcome = Except.ok () →
      (onSubmit held env data).isSuccess = true ∧
      (onSubmit held env data).submitError = none ∧
      (onSubmit held env data).formErrorsCorp = none ∧
      (onSubmit held env data).formErrorsSubmit = none) := by
  have h9 := schemaAccepts_corp hschema
  rcases hpass with ⟨hne, hstale, hfv, hheld⟩ | ⟨v, hv, hcn, hvalid⟩
  · have hon : onSubmit held env data =
        submitStage34 held env data
          [SubmitEvent.verifyRemote data.corporationNumber]
          (some (freshVerdict data.corporationNumber env.verifyTransport)) := by
      unfold onSubmit
      rw [if_pos ⟨hne, hstale⟩, hookValidate_of_len9 _ _ h9]
      simp [onSubmitFresh, verifyEvents, hfv]
    have hstage : submitStage34 held env data
        [SubmitEvent.verifyRemote data.corporationNumber]
        (some (freshVerdict data.corporationNumber env.verifyTransport)) =
        submitStage4 env data [SubmitEvent.verifyRemote data.corporationNumber]
          (some (freshVerdict data.corporationNumber env.verifyTransport)) := by
      rcases held with _ | w
      · rfl
      · simp only [submitStage34, if_pos (hheld w rfl)]
    rw [hon, hstage]
    constructor
    · rw [submitStage4_events]
      simp
    · intro hok
      exact submitStage4_ok data _ _ hok
  · subst hv
    have hcond : ¬ (data.corporationNumber ≠ "" ∧
        staleHeld (some v) data.corporationNumber) := by
      rintro ⟨-, hst⟩
      exact hst hcn
    have hon : onSubmit (some v) env data =
        submitStage4 env data [] (some v) := by
      unfold onSubmit
      rw [if_neg hcond]
      simp only [submitStage34, if_pos hvalid]
    rw [hon]
    constructor
    · rw [submitStage4_events]
      simp
    · intro hok
      exact submitStage4_ok data _ _ hok

/-- Witness for C2's amended theorem: the spec's end-to-end success
scenario — fresh form, raw phone `'3062776103'` normalized by
`cleanPhoneInput`, verifier returns a valid verdict, endpoint succeeds —
submits and finishes `isSuccess := true` with no errors. -/
theorem submit_end_to_end_success_instance :
    SubmitEvent.postProfile
        { firstName := "John", lastName := "Doe",
          phone := cleanPhoneInput "3062776103", corporationNumber := "123456789" } ∈
      (onSubmit none
        { verifyTransport := Transport.ok
            { corporationNumber := "123456789", valid := true, message := none },
          postOutcome := Except.ok () }
        { firstName := "John", lastName := "Doe",
          phone := cleanPhoneInput "3062776103", corporationNumber := "123456789" }).events ∧
    (onSubmit none
        { verifyTransport := Transport.ok
            { corporationNumber := "123456789", valid := true, message := none },
          postOutcome := Except.ok () }
        { firstName := "John", lastName := "Doe",
          phone := cleanPhoneInput "3062776103", corporationNumber := "123456789" }).isSuccess = true ∧
    (onSubmit none
        { verifyTransport := Transport.ok
            { corporationNumber := "123456789", valid := true, message := none },
          postOutcome := Except.ok () }
        { firstName := "John", lastName := "Doe",
          phone := cleanPhoneInput "3062776103", corporationNumber := "123456789" }).formErrorsCorp = none := by
  have h := submit_verification_passes_calls_endpoint none
    { verifyTransport := Transport.ok
        { corporationNumber := "123456789", valid := true, message := none },
      postOutcome := Except.ok () }
    { firstName := "John", lastName := "Doe",
      phone := cleanPhoneInput "3062776103", corporationNumber := "123456789" }
    (by decide)
    (Or.inl ⟨by decide, trivial, by decide, fun v hv => Option.noConfusion hv⟩)
  exact ⟨h.1, (h.2 rfl).1, (h.2 rfl).2.2.1⟩

end Onboarding
